import Mathlib

/-!
# Scenario assembly of `olsr.cc`

A shallow embedding of the `main` function of `src/olsr.cc` (an ns-3 scenario
script) and of the parts of the ns-3 helper API that `main` calls.  The
simulated world is an explicit state (`Sim`); every helper call of `main` is a
state transformer in `Build`, and the program order of the world-affecting
calls is kept in `Sim.log`.  The ns-3 library is not part of the repository;
its helpers are modelled after the behaviour of the library, as far as `main`
uses them, and abort where the library aborts.

Conventions.
* The two `double` locals `start_t = 1.0` and `sim_t = 20.0` are whole numbers
  of seconds; they and their sum are exact in binary64 and are embedded as
  `Int` seconds.
* ns-3 `Time` is an integer number of nanoseconds.
* IPv4 addresses are naturals below `2 ^ 32`; data rates are bits per second.
* The command line is taken without overrides (`cmd.Parse` changes nothing).
-/

namespace Olsr

/-! ## Values of the ns-3 library used by `main` -/

/-- The ns-3 `Time` value: integer nanoseconds. -/
abbrev Time := Int

/-- The ns-3 `Seconds (value)` constructor, for a whole number of seconds. -/
def Seconds (value : Int) : Time := value * 1000000000

/-- One decimal digit step of the ns-3 `AsciiToIpv4Host` inner loop:
`byte *= 10; byte += *address - ASCII_ZERO;` on a `uint8_t`. -/
def octetStep (byte : Nat) (ch : Char) : Nat :=
  (byte * 10 + (ch.toNat + 256 - 48)) % 256

/-- The inner loop of ns-3 `AsciiToIpv4Host`: consume characters up to the next
dot (or the end), returning the byte read and the rest after the dot. -/
def readOctet : List Char → Nat → Nat × Option (List Char)
  | [], byte => (byte, none)
  | ch :: rest, byte =>
    if ch = '.' then (byte, some rest) else readOctet rest (octetStep byte ch)

/-- The outer loop of ns-3 `AsciiToIpv4Host`: `host <<= 8; host |= byte;` on a
`uint32_t`, once per dot-separated group.  The fuel bounds the number of
groups by the length of the text. -/
def asciiToIpv4HostLoop : Nat → List Char → Nat → Nat
  | 0, _, host => host
  | fuel + 1, text, host =>
    match readOctet text 0 with
    | (byte, none) => (host * 256) % 4294967296 ||| byte
    | (byte, some rest) => asciiToIpv4HostLoop fuel rest ((host * 256) % 4294967296 ||| byte)

/-- The ns-3 `Ipv4Address (char const *)` and `Ipv4Mask (char const *)`
constructors: dotted decimal text to a 32-bit host-order number. -/
def AsciiToIpv4Host (address : String) : Nat :=
  asciiToIpv4HostLoop (address.data.length + 1) address.data 0

/-- Split a text into its leading run of decimal digits (as a number) and the
trailer, as ns-3 does with `find_first_not_of` before reading a unit. -/
def leadingNumber : List Char → Nat → Nat × List Char
  | [], acc => (acc, [])
  | ch :: rest, acc =>
    if 48 ≤ ch.toNat ∧ ch.toNat ≤ 57 then leadingNumber rest (acc * 10 + (ch.toNat - 48))
    else (acc, ch :: rest)

/-- The ns-3 `DataRate (std::string)` parser restricted to whole numbers: the
unit table of `DataRate::DoParse` for bit and byte rates up to giga; the
result is in bits per second, `none` for an unknown unit. -/
def DataRate.parse (rate : String) : Option Nat :=
  match leadingNumber rate.data 0 with
  | (r, trailer) =>
    match String.mk trailer with
    | "bps" => some r
    | "b/s" => some r
    | "Bps" => some (r * 8)
    | "B/s" => some (r * 8)
    | "kbps" => some (r * 1000)
    | "kb/s" => some (r * 1000)
    | "Kbps" => some (r * 1000)
    | "Kb/s" => some (r * 1000)
    | "kBps" => some (r * 8000)
    | "kB/s" => some (r * 8000)
    | "Mbps" => some (r * 1000000)
    | "Mb/s" => some (r * 1000000)
    | "Gbps" => some (r * 1000000000)
    | "Gb/s" => some (r * 1000000000)
    | _ => none

/-- The ns-3 `Time (std::string)` parser restricted to whole numbers: the
result is in nanoseconds, `none` for an unknown unit. -/
def Time.parse (text : String) : Option Time :=
  match leadingNumber text.data 0 with
  | (r, trailer) =>
    match String.mk trailer with
    | "s" => some ((r : Int) * 1000000000)
    | "ms" => some ((r : Int) * 1000000)
    | "us" => some ((r : Int) * 1000)
    | "ns" => some (r : Int)
    | _ => none

/-! ## The simulated world -/

/-- The runner states of the scenario life cycle. -/
inductive RunnerState
  | Built
  | Running
  | Stopped
  deriving DecidableEq, Repr

/-- Modelled from the spec: the ns-3 routing helpers are not part of the
repository; following section 4.2 of the spec, the number handed to
`Ipv4ListRoutingHelper::Add` next to a routing protocol is kept as the
activation time (in seconds) of that protocol on every node the stack is
installed on. -/
structure RoutingBinding where
  node : Nat
  protocol : String
  activation : Int
  deriving DecidableEq, Repr

/-- A point-to-point channel between two nodes, with the device data rate
(bit/s) and the channel delay it was installed with. -/
structure Channel where
  a : Nat
  b : Nat
  dataRate : Nat
  delay : Time
  deriving DecidableEq, Repr

/-- A point-to-point net device: the node it sits on and its channel. -/
structure NetDevice where
  node : Nat
  channel : Nat
  deriving DecidableEq, Repr

/-- An IPv4 interface: node, channel of its device, local address and mask. -/
structure Ipv4Interface where
  node : Nat
  channel : Nat
  address : Nat
  mask : Nat
  deriving DecidableEq, Repr

/-- What an installed application is: an OnOff source sending to a remote
socket address, or a packet sink bound to a local socket address. -/
inductive AppConfig
  | onOff (protocol : String) (remote : Nat) (port : Nat) (dataRate : Nat) (packetSize : Nat)
  | packetSink (protocol : String) (locAddr : Nat) (port : Nat)
  deriving DecidableEq, Repr

/-- An application installed on a node, with its start and stop times. -/
structure Application where
  node : Nat
  config : AppConfig
  startTime : Time
  stopTime : Time
  deriving DecidableEq, Repr

/-- The actions `main` registers with the engine for a later time. -/
inductive EventKind
  | startApplication (app : Nat)
  | stopApplication (app : Nat)
  | stop
  deriving DecidableEq, Repr

/-- The world-affecting calls of `main`, in the vocabulary of its helpers. -/
inductive Call
  | createNodes (n : Nat)
  | internetInstall (nodes : List Nat)
  | p2pInstall (a b : Nat)
  | ipv4Assign (devices : List Nat)
  | onOffInstall (node : Nat)
  | sinkInstall (nodes : List Nat)
  | appStart (apps : List Nat) (t : Time)
  | appStop (apps : List Nat) (t : Time)
  | enableAsciiAll
  | enablePcapAll
  | simulatorStop (t : Time)
  | runBegin
  | runEnd
  | destroy
  deriving DecidableEq, Repr

/-- The state of the simulated world while `main` runs. -/
structure Sim where
  defaultPacketSize : Nat
  defaultDataRate : Nat
  nodes : Nat
  internetNodes : List Nat
  routing : List RoutingBinding
  channels : List Channel
  devices : List NetDevice
  interfaces : List Ipv4Interface
  applications : List Application
  asciiTraced : List Nat
  pcapTraced : List Nat
  events : List (Time × EventKind)
  state : RunnerState
  runs : Nat
  destroys : Nat
  log : List Call
  deriving DecidableEq, Repr

/-- The world before `main` starts: nothing created, the ns-3 defaults of the
OnOff application (512 bytes, 500 kb/s), runner state `Built`. -/
def Sim.initial : Sim :=
  { defaultPacketSize := 512, defaultDataRate := 500000, nodes := 0,
    internetNodes := [], routing := [],
    channels := [], devices := [], interfaces := [], applications := [],
    asciiTraced := [], pcapTraced := [], events := [], state := RunnerState.Built,
    runs := 0, destroys := 0, log := [] }

/-- Build steps: state passing over `Sim`, failing with a message where the
library would abort.  A helper call is a function from the world before the
call to its result and the world after it. -/
abbrev Build := StateT Sim (Except String)

/-- Append a call to the program-order log. -/
def record (c : Call) (w : Sim) : Sim :=
  { w with log := w.log ++ [c] }

/-! ## The helper API called by `main` -/

/-- The values `main` passes as attribute values. -/
inductive AttributeValue
  | UintegerValue (n : Nat)
  | StringValue (text : String)
  deriving DecidableEq, Repr

export AttributeValue (UintegerValue StringValue)

/-- Model of `Config::SetDefault`: the two defaults of the OnOff application that `main`
sets; any other name, or a value of the wrong form, aborts. -/
def Config.SetDefault (name : String) (value : AttributeValue) (w : Sim) :
    Except String (Unit × Sim) :=
  match name, value with
  | "ns3::OnOffApplication::PacketSize", UintegerValue n =>
    Except.ok ((), { w with defaultPacketSize := n })
  | "ns3::OnOffApplication::DataRate", StringValue text =>
    match DataRate.parse text with
    | some r => Except.ok ((), { w with defaultDataRate := r })
    | none => Except.error "DataRate: cannot parse"
  | _, _ => Except.error "Config::SetDefault: attribute not modelled"

/-- Model of `cmd.Parse (argc, argv)` for a command line without arguments: nothing is
overridden. -/
def CommandLine.Parse (w : Sim) : Except String (Unit × Sim) :=
  Except.ok ((), w)

/-- Model of `DataRate (std::string)`: aborts when the text does not parse. -/
def DataRate (rate : String) (w : Sim) : Except String (Nat × Sim) :=
  match DataRate.parse rate with
  | some r => Except.ok (r, w)
  | none => Except.error "DataRate: cannot parse"

/-- A `NodeContainer`: the identifiers of its nodes, in order. -/
abbrev NodeContainer := List Nat

/-- Model of `c.Create (n)`: `n` new nodes, numbered after the existing ones, are
created and appended to the container. -/
def NodeContainer.Create (c : NodeContainer) (n : Nat) (w : Sim) :
    Except String (NodeContainer × Sim) :=
  Except.ok (c ++ (List.range n).map (fun k => w.nodes + k),
    record (Call.createNodes n) { w with nodes := w.nodes + n })

/-- Model of `c.Get (i)`: the `i`-th node of the container. -/
def NodeContainer.Get (c : NodeContainer) (i : Nat) (w : Sim) : Except String (Nat × Sim) :=
  match List.get? c i with
  | some a => Except.ok (a, w)
  | none => Except.error "NodeContainer::Get: index out of range"

/-- Model of `NodeContainer (a, b)`: the container of two given nodes. -/
def NodeContainer.pair (a b : Nat) : NodeContainer := [a, b]

/-- Model of `NodeContainer (a)`: the container of one given node. -/
def NodeContainer.single (a : Nat) : NodeContainer := [a]

/-- Model of `OlsrHelper`: stands for the protocol it installs. -/
def OlsrHelper : String := "ns3::olsr::RoutingProtocol"

/-- Model of `Ipv4ListRoutingHelper`: the protocols added so far, each with the number
given to `Add`. -/
abbrev Ipv4ListRoutingHelper := List (String × Int)

/-- Model of `list.Add (routing, t)`. -/
def Ipv4ListRoutingHelper.Add (list : Ipv4ListRoutingHelper) (routing : String) (t : Int) :
    Ipv4ListRoutingHelper :=
  list ++ [(routing, t)]

/-- Model of `InternetStackHelper`: the routing helper used by the next `Install`.  The
default routing of a fresh helper is replaced by `SetRoutingHelper` before the
only `Install` of `main`, so a fresh helper is modelled with none. -/
structure InternetStackHelper where
  routing : Ipv4ListRoutingHelper
  deriving DecidableEq, Repr

/-- Model of `internet.SetRoutingHelper (list)`. -/
def InternetStackHelper.SetRoutingHelper (_internet : InternetStackHelper)
    (list : Ipv4ListRoutingHelper) : InternetStackHelper :=
  { routing := list }

/-- The routing bindings one node gets from a routing helper. -/
def bindingsOf (list : Ipv4ListRoutingHelper) (node : Nat) : List RoutingBinding :=
  list.map (fun e => RoutingBinding.mk node e.1 e.2)

/-- Model of `internet.Install (c)`: every node of the container gets the IPv4 stack
and one routing binding per protocol of the routing helper. -/
def InternetStackHelper.Install (internet : InternetStackHelper) (c : NodeContainer)
    (w : Sim) : Except String (Unit × Sim) :=
  Except.ok ((), record (Call.internetInstall c)
    { w with
      internetNodes := w.internetNodes ++ c,
      routing := w.routing ++ c.flatMap (bindingsOf internet.routing) })

/-- Model of `PointToPointHelper`: the device data rate (bit/s) and channel delay that
the next `Install` uses; a fresh helper has the ns-3 defaults. -/
structure PointToPointHelper where
  dataRate : Nat
  delay : Time
  deriving DecidableEq, Repr

/-- A fresh `PointToPointHelper`: 32768 bit/s, no delay. -/
def PointToPointHelper.fresh : PointToPointHelper := { dataRate := 32768, delay := 0 }

/-- Model of `p2p.SetDeviceAttribute (name, value)`, for the `DataRate` attribute. -/
def PointToPointHelper.SetDeviceAttribute (p2p : PointToPointHelper) (name : String)
    (value : AttributeValue) (w : Sim) : Except String (PointToPointHelper × Sim) :=
  match name, value with
  | "DataRate", StringValue text =>
    match DataRate.parse text with
    | some r => Except.ok ({ p2p with dataRate := r }, w)
    | none => Except.error "DataRate: cannot parse"
  | _, _ => Except.error "SetDeviceAttribute: attribute not modelled"

/-- Model of `p2p.SetChannelAttribute (name, value)`, for the `Delay` attribute. -/
def PointToPointHelper.SetChannelAttribute (p2p : PointToPointHelper) (name : String)
    (value : AttributeValue) (w : Sim) : Except String (PointToPointHelper × Sim) :=
  match name, value with
  | "Delay", StringValue text =>
    match Time.parse text with
    | some d => Except.ok ({ p2p with delay := d }, w)
    | none => Except.error "Time: cannot parse"
  | _, _ => Except.error "SetChannelAttribute: attribute not modelled"

/-- A `NetDeviceContainer`: indices into `Sim.devices`. -/
abbrev NetDeviceContainer := List Nat

/-- Model of `p2p.Install (c)`: the container must hold exactly two nodes; one channel
is created between them with one device on each, first node first. -/
def PointToPointHelper.Install (p2p : PointToPointHelper) (c : NodeContainer) (w : Sim) :
    Except String (NetDeviceContainer × Sim) :=
  match c with
  | [a, b] =>
    Except.ok ([w.devices.length, w.devices.length + 1],
      record (Call.p2pInstall a b)
        { w with
          channels := w.channels ++ [Channel.mk a b p2p.dataRate p2p.delay],
          devices := w.devices ++
            [NetDevice.mk a w.channels.length, NetDevice.mk b w.channels.length] })
  | _ => Except.error "PointToPointHelper::Install: container must hold two nodes"

/-- Model of `Ipv4AddressHelper`: the network number (shifted down), the mask, the
number of host bits, the largest host number and the next host number. -/
structure Ipv4AddressHelper where
  network : Nat
  mask : Nat
  shift : Nat
  max : Nat
  address : Nat
  deriving DecidableEq, Repr

/-- A fresh `Ipv4AddressHelper`, before any `SetBase`. -/
def Ipv4AddressHelper.fresh : Ipv4AddressHelper :=
  { network := 0, mask := 0, shift := 0, max := 0, address := 0 }

/-- The loop of `Ipv4AddressHelper::NumAddressBits`: the position of the lowest
set bit of the mask, searched over `fuel` bit positions starting at `i`. -/
def numAddressBitsLoop : Nat → Nat → Nat → Option Nat
  | 0, _, _ => none
  | fuel + 1, i, maskbits =>
    if maskbits % 2 = 1 then some i else numAddressBitsLoop fuel (i + 1) (maskbits / 2)

/-- Model of `Ipv4AddressHelper::NumAddressBits` over the 32 bits of a mask. -/
def NumAddressBits (maskbits : Nat) : Option Nat := numAddressBitsLoop 32 0 maskbits

/-- The helper state after `SetBase` on a network and mask given as numbers:
`none` when the network has bits outside the mask or the mask is empty. -/
def Ipv4AddressHelper.based (net msk : Nat) : Option Ipv4AddressHelper :=
  if net &&& (4294967295 - msk) ≠ 0 then none
  else
    match NumAddressBits msk with
    | some shift =>
      some { network := net >>> shift, mask := msk, shift := shift, max := 2 ^ shift - 2,
             address := 1 }
    | none => none

/-- Model of `ipv4.SetBase (network, mask)` with the default base host `0.0.0.1`: aborts
when the network has bits outside the mask or the mask is empty. -/
def Ipv4AddressHelper.SetBase (_ipv4 : Ipv4AddressHelper) (network mask : String) (w : Sim) :
    Except String (Ipv4AddressHelper × Sim) :=
  match Ipv4AddressHelper.based (AsciiToIpv4Host network) (AsciiToIpv4Host mask) with
  | some ipv4 => Except.ok (ipv4, w)
  | none => Except.error "Ipv4AddressHelper::SetBase: inconsistent network and mask"

/-- Model of `Ipv4AddressHelper::NewAddress`: the next address of the current network
and the advanced helper; `none` when the host numbers are used up. -/
def Ipv4AddressHelper.NewAddress (ipv4 : Ipv4AddressHelper) :
    Option (Ipv4AddressHelper × Nat) :=
  if ipv4.address ≤ ipv4.max then
    some ({ ipv4 with address := ipv4.address + 1 },
          ((ipv4.network <<< ipv4.shift) % 4294967296) ||| ipv4.address)
  else none

/-- An `Ipv4InterfaceContainer`: indices into `Sim.interfaces`. -/
abbrev Ipv4InterfaceContainer := List Nat

/-- The loop of `Ipv4AddressHelper::Assign` over the devices of a container:
each device's node must already carry the IPv4 stack; it gets one interface
with the next address of the helper. -/
def Ipv4AddressHelper.assignLoop :
    List Nat → Ipv4AddressHelper → Sim →
      Except String ((Ipv4AddressHelper × Ipv4InterfaceContainer) × Sim)
  | [], ipv4, w => Except.ok ((ipv4, []), w)
  | d :: ds, ipv4, w =>
    match List.get? w.devices d with
    | none => Except.error "Ipv4AddressHelper::Assign: no such device"
    | some dev =>
      if dev.node ∈ w.internetNodes then
        match ipv4.NewAddress with
        | none => Except.error "Ipv4AddressHelper::NewAddress: address overflow"
        | some (next, addr) =>
          match Ipv4AddressHelper.assignLoop ds next
              { w with interfaces := w.interfaces ++
                  [Ipv4Interface.mk dev.node dev.channel addr ipv4.mask] } with
          | Except.ok ((last, rest), w1) =>
            Except.ok ((last, w.interfaces.length :: rest), w1)
          | Except.error e => Except.error e
      else Except.error "Ipv4AddressHelper::Assign: node without IPv4 stack installed"

/-- Model of `ipv4.Assign (devices)`: returns the advanced helper and the container of
the new interfaces, in device order. -/
def Ipv4AddressHelper.Assign (ipv4 : Ipv4AddressHelper) (devices : NetDeviceContainer)
    (w : Sim) : Except String ((Ipv4AddressHelper × Ipv4InterfaceContainer) × Sim) :=
  Ipv4AddressHelper.assignLoop devices ipv4 (record (Call.ipv4Assign devices) w)

/-- Model of `i.GetAddress (k)`: the address of the `k`-th interface of a container. -/
def Ipv4InterfaceContainer.GetAddress (i : Ipv4InterfaceContainer) (k : Nat) (w : Sim) :
    Except String (Nat × Sim) :=
  match List.get? i k with
  | none => Except.error "Ipv4InterfaceContainer::GetAddress: index out of range"
  | some idx =>
    match List.get? w.interfaces idx with
    | none => Except.error "Ipv4InterfaceContainer::GetAddress: no such interface"
    | some ifc => Except.ok (ifc.address, w)

/-- Model of `Ipv4Address::GetAny ()`: the address `0.0.0.0`. -/
def Ipv4Address.GetAny : Nat := 0

/-- Model of `InetSocketAddress (address, port)`. -/
def InetSocketAddress (address : Nat) (port : Nat) : Nat × Nat := (address, port)

/-- An `ApplicationContainer`: indices into `Sim.applications`. -/
abbrev ApplicationContainer := List Nat

/-- Model of `OnOffHelper`: the remote socket address and, once set, the data rate and
packet size of the applications it creates. -/
structure OnOffHelper where
  protocol : String
  remote : Nat × Nat
  dataRate : Option Nat
  packetSize : Option Nat
  deriving DecidableEq, Repr

/-- Model of `OnOffHelper (protocol, address)`. -/
def OnOffHelper.create (protocol : String) (address : Nat × Nat) : OnOffHelper :=
  { protocol := protocol, remote := address, dataRate := none, packetSize := none }

/-- Model of `onoff.SetConstantRate (dataRate)` with the default packet size 512. -/
def OnOffHelper.SetConstantRate (onoff : OnOffHelper) (dataRate : Nat) : OnOffHelper :=
  { onoff with dataRate := some dataRate, packetSize := some 512 }

/-- Model of `onoff.Install (node)`: one OnOff application on the node, with start and
stop time zero; attributes the helper did not set take the current defaults. -/
def OnOffHelper.Install (onoff : OnOffHelper) (node : Nat) (w : Sim) :
    Except String (ApplicationContainer × Sim) :=
  Except.ok ([w.applications.length],
    record (Call.onOffInstall node)
      { w with applications := w.applications ++
          [Application.mk node
            (AppConfig.onOff onoff.protocol onoff.remote.1 onoff.remote.2
              (onoff.dataRate.getD w.defaultDataRate)
              (onoff.packetSize.getD w.defaultPacketSize)) 0 0] })

/-- Model of `PacketSinkHelper`: the local socket address its sinks bind. -/
structure PacketSinkHelper where
  protocol : String
  locAddr : Nat × Nat
  deriving DecidableEq, Repr

/-- Model of `PacketSinkHelper (protocol, address)`. -/
def PacketSinkHelper.create (protocol : String) (address : Nat × Nat) : PacketSinkHelper :=
  { protocol := protocol, locAddr := address }

/-- The loop of `sink.Install (c)`: one packet sink per node of the container. -/
def PacketSinkHelper.installLoop (sink : PacketSinkHelper) :
    List Nat → Sim → ApplicationContainer × Sim
  | [], w => ([], w)
  | n :: ns, w =>
    match PacketSinkHelper.installLoop sink ns
        { w with applications := w.applications ++
            [Application.mk n
              (AppConfig.packetSink sink.protocol sink.locAddr.1 sink.locAddr.2) 0 0] } with
    | (rest, w1) => (w.applications.length :: rest, w1)

/-- Model of `sink.Install (c)`. -/
def PacketSinkHelper.Install (sink : PacketSinkHelper) (c : NodeContainer) (w : Sim) :
    Except String (ApplicationContainer × Sim) :=
  Except.ok (PacketSinkHelper.installLoop sink c (record (Call.sinkInstall c) w))

/-- Apply a change to the application at one index, leaving the others alone. -/
def updateApp (f : Application → Application) : Nat → List Application → List Application
  | _, [] => []
  | 0, a :: rest => f a :: rest
  | i + 1, a :: rest => a :: updateApp f i rest

/-- Set the start time of one application. -/
def setStart (t : Time) (i : Nat) (apps : List Application) : List Application :=
  updateApp (fun a => { a with startTime := t }) i apps

/-- Set the stop time of one application. -/
def setStop (t : Time) (i : Nat) (apps : List Application) : List Application :=
  updateApp (fun a => { a with stopTime := t }) i apps

/-- Model of `apps.Start (t)`: every application of the container starts at `t`; one
start action per application is registered for that time. -/
def ApplicationContainer.Start (apps : ApplicationContainer) (t : Time) (w : Sim) :
    Except String (Unit × Sim) :=
  Except.ok ((), record (Call.appStart apps t)
    { w with
      applications := apps.foldl (fun l i => setStart t i l) w.applications,
      events := w.events ++ apps.map (fun i => (t, EventKind.startApplication i)) })

/-- Model of `apps.Stop (t)`: every application of the container stops at `t`; one stop
action per application is registered for that time. -/
def ApplicationContainer.Stop (apps : ApplicationContainer) (t : Time) (w : Sim) :
    Except String (Unit × Sim) :=
  Except.ok ((), record (Call.appStop apps t)
    { w with
      applications := apps.foldl (fun l i => setStop t i l) w.applications,
      events := w.events ++ apps.map (fun i => (t, EventKind.stopApplication i)) })

/-- Model of `p2p.EnableAsciiAll (stream)`: ASCII trace hooks on every point-to-point
device that exists at the time of the call. -/
def PointToPointHelper.EnableAsciiAll (_p2p : PointToPointHelper) (_stream : String)
    (w : Sim) : Except String (Unit × Sim) :=
  Except.ok ((), record Call.enableAsciiAll
    { w with asciiTraced := List.range w.devices.length })

/-- Model of `p2p.EnablePcapAll (prefix)`: pcap trace hooks on every point-to-point
device that exists at the time of the call. -/
def PointToPointHelper.EnablePcapAll (_p2p : PointToPointHelper) (_name : String)
    (w : Sim) : Except String (Unit × Sim) :=
  Except.ok ((), record Call.enablePcapAll
    { w with pcapTraced := List.range w.devices.length })

/-- Model of `ascii.CreateFileStream (name)`: stands for the file it writes. -/
def AsciiTraceHelper.CreateFileStream (name : String) : String := name

/-- Model of `Simulator::Stop (t)`: registers the stop of the run at time `t`. -/
def Simulator.Stop (t : Time) (w : Sim) : Except String (Unit × Sim) :=
  Except.ok ((), record (Call.simulatorStop t)
    { w with events := w.events ++ [(t, EventKind.stop)] })

/-- The engine is entered: the runner goes to `Running`. -/
def Simulator.enter (w : Sim) : Sim :=
  { w with state := RunnerState.Running, runs := w.runs + 1 }

/-- The engine has processed its events up to the stop: the runner goes to
`Stopped`. -/
def Simulator.leave (w : Sim) : Sim :=
  { w with state := RunnerState.Stopped }

/-- Model of `Simulator::Run ()`: the call enters the engine (the runner is `Running`
while the engine processes events) and returns when the run has ended (the
runner is `Stopped`). -/
def Simulator.Run (w : Sim) : Except String (Unit × Sim) :=
  Except.ok ((), record Call.runEnd
    (Simulator.leave (Simulator.enter (record Call.runBegin w))))

/-- Model of `Simulator::Destroy ()`: the teardown of the engine. -/
def Simulator.Destroy (w : Sim) : Except String (Unit × Sim) :=
  Except.ok ((), record Call.destroy { w with destroys := w.destroys + 1 })

/-! ## The program -/

/-- The body of `main` after the initialisation of its two locals `start_t`
and `sim_t` (lines 69 to 188 of `olsr.cc`), statement by statement.  The two
parameters stand for the values of these locals; the program fixes them (see
`main`), and the body is only ever run at those values. -/
def mainBody (start_t sim_t : Int) : Build Int := do
  Config.SetDefault "ns3::OnOffApplication::PacketSize" (UintegerValue 210)
  Config.SetDefault "ns3::OnOffApplication::DataRate" (StringValue "50000kb/s")

  CommandLine.Parse

  let c : NodeContainer := []
  let c ← c.Create 5
  let n01 := NodeContainer.pair (← c.Get 0) (← c.Get 1)
  let n12 := NodeContainer.pair (← c.Get 1) (← c.Get 2)
  let n23 := NodeContainer.pair (← c.Get 2) (← c.Get 3)
  let n34 := NodeContainer.pair (← c.Get 3) (← c.Get 4)

  let olsr := OlsrHelper
  let list : Ipv4ListRoutingHelper := []
  let list := list.Add olsr start_t
  let internet : InternetStackHelper := { routing := [] }
  let internet := internet.SetRoutingHelper list
  internet.Install c

  let p2p := PointToPointHelper.fresh
  let p2p ← p2p.SetDeviceAttribute "DataRate" (StringValue "50000kbps")
  let p2p ← p2p.SetChannelAttribute "Delay" (StringValue "3ms")
  let nd01 ← p2p.Install n01
  let nd12 ← p2p.Install n12
  let nd23 ← p2p.Install n23
  let nd34 ← p2p.Install n34

  let ipv4 := Ipv4AddressHelper.fresh
  let ipv4 ← ipv4.SetBase "10.1.01.0" "255.255.255.0"
  let (ipv4, i01) ← ipv4.Assign nd01
  let ipv4 ← ipv4.SetBase "10.1.12.0" "255.255.255.0"
  let (ipv4, _i12) ← ipv4.Assign nd12
  let ipv4 ← ipv4.SetBase "10.1.23.0" "255.255.255.0"
  let (ipv4, _i23) ← ipv4.Assign nd23
  let ipv4 ← ipv4.SetBase "10.1.34.0" "255.255.255.0"
  let (_, _i34) ← ipv4.Assign nd34

  let port : Nat := 9

  let onoff1 := OnOffHelper.create "ns3::UdpSocketFactory"
    (InetSocketAddress (← i01.GetAddress 0) port)
  let onoff1 := onoff1.SetConstantRate (← DataRate "10000kb/s")
  let onOffApp1 ← onoff1.Install (← c.Get 4)
  onOffApp1.Start (Seconds start_t)
  onOffApp1.Stop (Seconds (sim_t + start_t))

  let onoff2 := OnOffHelper.create "ns3::UdpSocketFactory"
    (InetSocketAddress (← i01.GetAddress 0) port)
  let onoff2 := onoff2.SetConstantRate (← DataRate "10kb/s")
  let onOffApp2 ← onoff2.Install (← c.Get 3)
  onOffApp2.Start (Seconds start_t)
  onOffApp2.Stop (Seconds (sim_t + start_t))

  let onoff3 := OnOffHelper.create "ns3::UdpSocketFactory"
    (InetSocketAddress (← i01.GetAddress 0) port)
  let onoff3 := onoff3.SetConstantRate (← DataRate "10kb/s")
  let onOffApp3 ← onoff3.Install (← c.Get 2)
  onOffApp3.Start (Seconds start_t)
  onOffApp3.Stop (Seconds (sim_t + start_t))

  let onoff4 := OnOffHelper.create "ns3::UdpSocketFactory"
    (InetSocketAddress (← i01.GetAddress 0) port)
  let onoff4 := onoff4.SetConstantRate (← DataRate "10kb/s")
  let onOffApp4 ← onoff4.Install (← c.Get 1)
  onOffApp4.Start (Seconds start_t)
  onOffApp4.Stop (Seconds (sim_t + start_t))

  let sink := PacketSinkHelper.create "ns3::UdpSocketFactory"
    (InetSocketAddress Ipv4Address.GetAny port)
  let sinks := NodeContainer.single (← c.Get 0)
  let sinkApps ← sink.Install sinks
  sinkApps.Start (Seconds start_t)
  sinkApps.Stop (Seconds (sim_t + start_t))

  p2p.EnableAsciiAll (AsciiTraceHelper.CreateFileStream "simple-point-to-point-olsr.tr")
  p2p.EnablePcapAll "simple-point-to-point-olsr"

  Simulator.Stop (Seconds (start_t + sim_t))

  Simulator.Run

  Simulator.Destroy

  return 0

/-- The `main` function of `olsr.cc`: `start_t = 1.0`, `sim_t = 20.0`, then the body. -/
def main : Build Int :=
  let start_t : Int := 1
  let sim_t : Int := 20
  mainBody start_t sim_t

/-- The outcome of running a build from the initial world: the final world, or
the message of the abort. -/
def outcome (b : Build Int) : Except String Sim :=
  match b Sim.initial with
  | Except.ok (_, s) => Except.ok s
  | Except.error e => Except.error e

/-! ## Reading the built scenario -/

/-- The number of a dotted address `a.b.c.d`. -/
def ip (a b c d : Nat) : Nat := ((a * 256 + b) * 256 + c) * 256 + d

/-- The two end nodes of a channel. -/
def Channel.ends (ch : Channel) : Nat × Nat := (ch.a, ch.b)

/-- Two channels join the same pair of nodes, in either direction. -/
def Channel.samePair (x y : Channel) : Prop :=
  (x.a = y.a ∧ x.b = y.b) ∨ (x.a = y.b ∧ x.b = y.a)

instance (x y : Channel) : Decidable (Channel.samePair x y) := by
  unfold Channel.samePair; infer_instance

/-- The links of the chain of `n` nodes as the spec describes it: link `k`
joins node `k` and node `k + 1`, for `k` from `0` to `n - 2`. -/
def specChain (n : Nat) : List (Nat × Nat) :=
  (List.range (n - 1)).map (fun k => (k, k + 1))

/-- The network number of an interface: its address under its mask. -/
def Ipv4Interface.network (i : Ipv4Interface) : Nat := i.address &&& i.mask

/-- An address lies in the subnet of an interface. -/
def Ipv4Interface.covers (i : Ipv4Interface) (x : Nat) : Prop := x &&& i.mask = i.network

instance (i : Ipv4Interface) (x : Nat) : Decidable (i.covers x) := by
  unfold Ipv4Interface.covers; infer_instance

/-- The node that owns an address, if an interface carries it. -/
def Sim.nodeOfAddress (s : Sim) (x : Nat) : Option Nat :=
  (s.interfaces.find? (fun i => i.address = x)).map (fun i => i.node)

/-- A traffic flow as the spec describes it: source node, destination socket
address, rate (bit/s), packet size, start and stop time. -/
structure FlowSpec where
  source : Nat
  dstAddr : Nat
  dstPort : Nat
  rate : Nat
  packetSize : Nat
  start : Time
  stop : Time
  deriving DecidableEq, Repr

/-- The flow of an application, if it is an OnOff source. -/
def Application.flow (a : Application) : Option FlowSpec :=
  match a.config with
  | AppConfig.onOff _ remote port dataRate packetSize =>
    some ⟨a.node, remote, port, dataRate, packetSize, a.startTime, a.stopTime⟩
  | AppConfig.packetSink _ _ _ => none

/-- The flows of the world, in installation order. -/
def Sim.flows (s : Sim) : List FlowSpec := s.applications.filterMap Application.flow

/-- The (node, port) a packet sink binds, if the application is one. -/
def Application.sinkBinding (a : Application) : Option (Nat × Nat) :=
  match a.config with
  | AppConfig.onOff _ _ _ _ _ => none
  | AppConfig.packetSink _ _ port => some (a.node, port)

/-- The (node, port) pairs bound by the packet sinks of the world. -/
def Sim.sinkBindings (s : Sim) : List (Nat × Nat) :=
  s.applications.filterMap Application.sinkBinding

/-- The (source node, destination node) pair of every flow whose destination
address belongs to an interface. -/
def Sim.flowPairs (s : Sim) : List (Nat × Nat) :=
  s.flows.filterMap (fun f => (s.nodeOfAddress f.dstAddr).map (fun d => (f.source, d)))

/-- The time of the registered stop of the run, if any. -/
def Sim.stopTime (s : Sim) : Option Time :=
  (s.events.find? (fun e => e.2 = EventKind.stop)).map (fun e => e.1)

/-! ## Order of the build steps and the runner life cycle -/

/-- The stages of the build and run, in the vocabulary of the spec. -/
inductive Stage
  | nodes
  | routing
  | links
  | addressing
  | traffic
  | trace
  | runner
  deriving DecidableEq, Repr

/-- The stage a call of `main` belongs to. -/
def Call.stage : Call → Stage
  | Call.createNodes _ => Stage.nodes
  | Call.internetInstall _ => Stage.routing
  | Call.p2pInstall _ _ => Stage.links
  | Call.ipv4Assign _ => Stage.addressing
  | Call.onOffInstall _ => Stage.traffic
  | Call.sinkInstall _ => Stage.traffic
  | Call.appStart _ _ => Stage.traffic
  | Call.appStop _ _ => Stage.traffic
  | Call.enableAsciiAll => Stage.trace
  | Call.enablePcapAll => Stage.trace
  | Call.simulatorStop _ => Stage.runner
  | Call.runBegin => Stage.runner
  | Call.runEnd => Stage.runner
  | Call.destroy => Stage.runner

/-- The call installs packet sinks. -/
def Call.isSinkInstall : Call → Bool
  | Call.sinkInstall _ => true
  | _ => false

/-- The stages of the calls of a world, in program order. -/
def Sim.stages (s : Sim) : List Stage := s.log.map Call.stage

/-- In a sequence of stages, every step of a stage in `A` comes strictly
before every step of a stage in `B`. -/
def Before (A B : List Stage) (st : List Stage) : Prop :=
  ∀ i, i < st.length → ∀ j, j < st.length →
    (∃ a ∈ A, st.get? i = some a) → (∃ b ∈ B, st.get? j = some b) → i < j

instance (A B st : List Stage) : Decidable (Before A B st) := by
  unfold Before; infer_instance

/-- The dependency order of the build as the spec words it: topology before
routing, topology and routing before traffic, traffic before trace attachment. -/
def SpecBuildOrder (st : List Stage) : Prop :=
  Before [Stage.nodes, Stage.links, Stage.addressing] [Stage.routing] st ∧
  Before [Stage.nodes, Stage.links, Stage.addressing, Stage.routing] [Stage.traffic] st ∧
  Before [Stage.traffic] [Stage.trace] st

instance (st : List Stage) : Decidable (SpecBuildOrder st) := by
  unfold SpecBuildOrder; infer_instance

/-- The dependency order of the build as the code has it: nodes, then routing,
then links, then addresses, all of them before traffic, traffic before trace
attachment. -/
def CodeBuildOrder (st : List Stage) : Prop :=
  Before [Stage.nodes] [Stage.routing] st ∧
  Before [Stage.routing] [Stage.links, Stage.addressing] st ∧
  Before [Stage.links] [Stage.addressing] st ∧
  Before [Stage.nodes, Stage.routing, Stage.links, Stage.addressing] [Stage.traffic] st ∧
  Before [Stage.traffic] [Stage.trace] st

instance (st : List Stage) : Decidable (CodeBuildOrder st) := by
  unfold CodeBuildOrder; infer_instance

/-- The runner state machine `Built → Running → Stopped` of the spec, over the
calls of `main`: build and scheduling calls are allowed in `Built` only, the
entry into the engine takes `Built` to `Running`, its return takes `Running` to
`Stopped`, and the teardown is allowed in `Stopped` only. -/
def specRunnerStep : RunnerState → Call → Option RunnerState
  | RunnerState.Built, Call.runBegin => some RunnerState.Running
  | RunnerState.Built, Call.runEnd => none
  | RunnerState.Built, Call.destroy => none
  | RunnerState.Built, _ => some RunnerState.Built
  | RunnerState.Running, Call.runEnd => some RunnerState.Stopped
  | RunnerState.Running, _ => none
  | RunnerState.Stopped, Call.destroy => some RunnerState.Stopped
  | RunnerState.Stopped, _ => none

/-- The runner states after each call of a log, when the spec's state machine
accepts the whole log from the given state. -/
def specRunnerTrace : RunnerState → List Call → Option (List RunnerState)
  | _, [] => some []
  | q, c :: cs =>
    match specRunnerStep q c with
    | none => none
    | some q1 => (specRunnerTrace q1 cs).map (fun qs => q1 :: qs)

/-- What the header comment of `olsr.cc` says of the traffic: the (source,
destination) node pairs of the flows are exactly (0, 4) and (3, 1). -/
def HeaderFlows (pairs : List (Nat × Nat)) : Prop :=
  ∀ p, p ∈ pairs ↔ p = (0, 4) ∨ p = (3, 1)

/-! ## Running `main` -/

/-- The world `main` ends in, written out. -/
def scenario : Sim :=
  { defaultPacketSize := 210
    defaultDataRate := 50000000
    nodes := 5
    internetNodes := [0, 1, 2, 3, 4]
    routing :=
      [⟨0, "ns3::olsr::RoutingProtocol", 1⟩, ⟨1, "ns3::olsr::RoutingProtocol", 1⟩,
       ⟨2, "ns3::olsr::RoutingProtocol", 1⟩, ⟨3, "ns3::olsr::RoutingProtocol", 1⟩,
       ⟨4, "ns3::olsr::RoutingProtocol", 1⟩]
    channels :=
      [⟨0, 1, 50000000, 3000000⟩, ⟨1, 2, 50000000, 3000000⟩, ⟨2, 3, 50000000, 3000000⟩,
       ⟨3, 4, 50000000, 3000000⟩]
    devices := [⟨0, 0⟩, ⟨1, 0⟩, ⟨1, 1⟩, ⟨2, 1⟩, ⟨2, 2⟩, ⟨3, 2⟩, ⟨3, 3⟩, ⟨4, 3⟩]
    interfaces :=
      [⟨0, 0, 167837953, 4294967040⟩, ⟨1, 0, 167837954, 4294967040⟩,
       ⟨1, 1, 167840769, 4294967040⟩, ⟨2, 1, 167840770, 4294967040⟩,
       ⟨2, 2, 167843585, 4294967040⟩, ⟨3, 2, 167843586, 4294967040⟩,
       ⟨3, 3, 167846401, 4294967040⟩, ⟨4, 3, 167846402, 4294967040⟩]
    applications :=
      [⟨4, AppConfig.onOff "ns3::UdpSocketFactory" 167837953 9 10000000 512,
          Seconds 1, Seconds 21⟩,
       ⟨3, AppConfig.onOff "ns3::UdpSocketFactory" 167837953 9 10000 512,
          Seconds 1, Seconds 21⟩,
       ⟨2, AppConfig.onOff "ns3::UdpSocketFactory" 167837953 9 10000 512,
          Seconds 1, Seconds 21⟩,
       ⟨1, AppConfig.onOff "ns3::UdpSocketFactory" 167837953 9 10000 512,
          Seconds 1, Seconds 21⟩,
       ⟨0, AppConfig.packetSink "ns3::UdpSocketFactory" 0 9,
          Seconds 1, Seconds 21⟩]
    asciiTraced := [0, 1, 2, 3, 4, 5, 6, 7]
    pcapTraced := [0, 1, 2, 3, 4, 5, 6, 7]
    events :=
      [(Seconds 1, EventKind.startApplication 0),
       (Seconds 21, EventKind.stopApplication 0),
       (Seconds 1, EventKind.startApplication 1),
       (Seconds 21, EventKind.stopApplication 1),
       (Seconds 1, EventKind.startApplication 2),
       (Seconds 21, EventKind.stopApplication 2),
       (Seconds 1, EventKind.startApplication 3),
       (Seconds 21, EventKind.stopApplication 3),
       (Seconds 1, EventKind.startApplication 4),
       (Seconds 21, EventKind.stopApplication 4),
       (Seconds 21, EventKind.stop)]
    state := RunnerState.Stopped
    runs := 1
    destroys := 1
    log :=
      [Call.createNodes 5, Call.internetInstall [0, 1, 2, 3, 4],
       Call.p2pInstall 0 1, Call.p2pInstall 1 2, Call.p2pInstall 2 3, Call.p2pInstall 3 4,
       Call.ipv4Assign [0, 1], Call.ipv4Assign [2, 3], Call.ipv4Assign [4, 5],
       Call.ipv4Assign [6, 7],
       Call.onOffInstall 4, Call.appStart [0] (Seconds 1),
       Call.appStop [0] (Seconds 21),
       Call.onOffInstall 3, Call.appStart [1] (Seconds 1),
       Call.appStop [1] (Seconds 21),
       Call.onOffInstall 2, Call.appStart [2] (Seconds 1),
       Call.appStop [2] (Seconds 21),
       Call.onOffInstall 1, Call.appStart [3] (Seconds 1),
       Call.appStop [3] (Seconds 21),
       Call.sinkInstall [0], Call.appStart [4] (Seconds 1),
       Call.appStop [4] (Seconds 21),
       Call.enableAsciiAll, Call.enablePcapAll,
       Call.simulatorStop (Seconds 21),
       Call.runBegin, Call.runEnd, Call.destroy] }

/-- Sequencing of two build steps, applied to a world: the second step runs on
the result and world of the first, an abort of the first is the abort of both. -/
theorem bind_apply {α β : Type} (m : Build α) (k : α → Build β) (w : Sim) :
    (m >>= k) w =
      match m w with
      | Except.ok (v, w1) => k v w1
      | Except.error e => Except.error e := by
  show (StateT.bind m k) w = _
  unfold StateT.bind
  show (m w >>= _) = _
  cases m w with
  | error e => rfl
  | ok p => rfl

/-- A returned value leaves the world as it is. -/
theorem pure_apply {α : Type} (v : α) (w : Sim) : (pure v : Build α) w = Except.ok (v, w) :=
  rfl

/-- The rate texts, the delay text and the four address bases of `main`, read
as the library reads them. -/
theorem parse_default_rate : DataRate.parse "50000kb/s" = some 50000000 := by decide

theorem parse_link_rate : DataRate.parse "50000kbps" = some 50000000 := by decide

theorem parse_fast_rate : DataRate.parse "10000kb/s" = some 10000000 := by decide

theorem parse_slow_rate : DataRate.parse "10kb/s" = some 10000 := by decide

theorem parse_delay : Time.parse "3ms" = some 3000000 := by decide

theorem based_01 :
    Ipv4AddressHelper.based (AsciiToIpv4Host "10.1.01.0") (AsciiToIpv4Host "255.255.255.0")
      = some ⟨655617, 4294967040, 8, 254, 1⟩ := by decide

theorem based_12 :
    Ipv4AddressHelper.based (AsciiToIpv4Host "10.1.12.0") (AsciiToIpv4Host "255.255.255.0")
      = some ⟨655628, 4294967040, 8, 254, 1⟩ := by decide

theorem based_23 :
    Ipv4AddressHelper.based (AsciiToIpv4Host "10.1.23.0") (AsciiToIpv4Host "255.255.255.0")
      = some ⟨655639, 4294967040, 8, 254, 1⟩ := by decide

theorem based_34 :
    Ipv4AddressHelper.based (AsciiToIpv4Host "10.1.34.0") (AsciiToIpv4Host "255.255.255.0")
      = some ⟨655650, 4294967040, 8, 254, 1⟩ := by decide

/-- Running `main` from the initial world does not abort and ends in the world
`scenario`. -/
theorem main_outcome : outcome main = Except.ok scenario := by
  simp only [outcome, main, mainBody, scenario, bind_apply, pure_apply, Config.SetDefault,
    CommandLine.Parse,
    NodeContainer.Create, NodeContainer.Get, NodeContainer.pair, NodeContainer.single, record,
    Ipv4ListRoutingHelper.Add, InternetStackHelper.SetRoutingHelper,
    InternetStackHelper.Install, bindingsOf, OlsrHelper, PointToPointHelper.fresh,
    PointToPointHelper.SetDeviceAttribute, PointToPointHelper.SetChannelAttribute,
    PointToPointHelper.Install, Ipv4AddressHelper.fresh, Ipv4AddressHelper.SetBase,
    Ipv4AddressHelper.NewAddress, Ipv4AddressHelper.assignLoop, Ipv4AddressHelper.Assign,
    Ipv4InterfaceContainer.GetAddress, Ipv4Address.GetAny, InetSocketAddress,
    OnOffHelper.create, OnOffHelper.SetConstantRate, OnOffHelper.Install,
    PacketSinkHelper.create, PacketSinkHelper.installLoop, PacketSinkHelper.Install,
    updateApp, setStart, setStop, ApplicationContainer.Start, ApplicationContainer.Stop,
    PointToPointHelper.EnableAsciiAll, PointToPointHelper.EnablePcapAll,
    AsciiTraceHelper.CreateFileStream, Simulator.Stop, Simulator.Run, Simulator.enter,
    Simulator.leave, Simulator.Destroy, DataRate,
    parse_default_rate, parse_link_rate, parse_fast_rate, parse_slow_rate, parse_delay,
    based_01, based_12, based_23, based_34, Sim.initial,
    List.range, List.range.loop, List.nil_append, List.cons_append, List.length_cons,
    List.length_nil, List.get?_cons_zero, List.get?_cons_succ, List.map_cons, List.map_nil,
    List.flatMap_cons, List.flatMap_nil, List.foldl_cons, List.foldl_nil, Option.getD_some,
    List.mem_cons, List.get?_eq_getElem?, List.getElem?_cons_zero, List.getElem?_cons_succ,
    Nat.reduceAdd, Int.reduceAdd, Nat.reduceMod, Nat.reduceEqDiff, Nat.reduceLeDiff,
    Nat.reduceShiftLeft,
    Nat.reduceOr, reduceIte, true_or, or_true, Nat.zero_add]

/-! ## Topology and addressing -/

/-- C1: the topology built by `main` is the exact chain of size 5: exactly 5
nodes (every link end is one of the nodes 0..4), exactly 4 = 5 - 1 links, link
`k` joins node `k` and node `k + 1` for `k = 0..3` (the links are those of the
spec's chain), and no two links join the same pair of nodes. -/
theorem C1_exact_chain :
    ∃ s, outcome main = Except.ok s ∧
      s.nodes = 5 ∧
      s.channels.length = 4 ∧
      s.channels.length = s.nodes - 1 ∧
      s.channels.map Channel.ends = specChain s.nodes ∧
      (∀ k, k < 4 → (s.channels.get? k).map Channel.ends = some (k, k + 1)) ∧
      (∀ ch ∈ s.channels, ch.a < s.nodes ∧ ch.b < s.nodes) ∧
      s.channels.Pairwise (fun x y => ¬ x.samePair y) :=
  ⟨scenario, main_outcome, by decide⟩

/-- C2: the four per-link subnets configured by `main` (the base texts of its
`SetBase` calls read as numbers) are 10.1.1.0, 10.1.12.0, 10.1.23.0 and
10.1.34.0 under the mask 255.255.255.0 and are pairwise disjoint
as sets of 32-bit addresses; on every link the two end addresses are hosts .1
and .2 of the link's subnet, lie in the subnet of their own link and of no
other link, and all 8 interface addresses are pairwise different. -/
theorem C2_subnets_disjoint :
    ["10.1.01.0", "10.1.12.0", "10.1.23.0", "10.1.34.0", "255.255.255.0"].map AsciiToIpv4Host =
      [ip 10 1 1 0, ip 10 1 12 0, ip 10 1 23 0, ip 10 1 34 0, ip 255 255 255 0] ∧
    ∃ s, outcome main = Except.ok s ∧
      s.interfaces.map (fun i => (i.channel, i.network, i.mask)) =
        [(0, ip 10 1 1 0, ip 255 255 255 0), (0, ip 10 1 1 0, ip 255 255 255 0),
         (1, ip 10 1 12 0, ip 255 255 255 0), (1, ip 10 1 12 0, ip 255 255 255 0),
         (2, ip 10 1 23 0, ip 255 255 255 0), (2, ip 10 1 23 0, ip 255 255 255 0),
         (3, ip 10 1 34 0, ip 255 255 255 0), (3, ip 10 1 34 0, ip 255 255 255 0)] ∧
      s.interfaces.map (fun i => (i.channel, i.node, i.address)) =
        [(0, 0, ip 10 1 1 1), (0, 1, ip 10 1 1 2), (1, 1, ip 10 1 12 1), (1, 2, ip 10 1 12 2),
         (2, 2, ip 10 1 23 1), (2, 3, ip 10 1 23 2), (3, 3, ip 10 1 34 1),
         (3, 4, ip 10 1 34 2)] ∧
      (∀ x, x < 2 ^ 32 → ∀ i ∈ s.interfaces, ∀ j ∈ s.interfaces,
        i.channel ≠ j.channel → ¬ (i.covers x ∧ j.covers x)) ∧
      (∀ i ∈ s.interfaces, ∀ j ∈ s.interfaces,
        (j.covers i.address ↔ i.channel = j.channel)) ∧
      (∀ i ∈ s.interfaces, i.address < 2 ^ 32) ∧
      (s.interfaces.map (fun i => i.address)).length = 8 ∧
      (s.interfaces.map (fun i => i.address)).Nodup := by
  refine ⟨by decide, scenario, main_outcome, by decide, by decide, ?_, by decide,
    by decide, by decide, by decide⟩
  intro x _ i hi j hj hne hx
  have hmask : ∀ i ∈ scenario.interfaces, i.mask = 4294967040 := by decide
  have hnet : ∀ i ∈ scenario.interfaces, ∀ j ∈ scenario.interfaces,
      i.network = j.network → i.channel = j.channel := by decide
  have h1 : x &&& i.mask = i.network := hx.1
  have h2 : x &&& j.mask = j.network := hx.2
  rw [hmask i hi] at h1
  rw [hmask j hj] at h2
  exact hne (hnet i hi j hj (h1.symm.trans h2))

/-! ## Build order -/

/-- C3, as stated, fails: in the log of `main` the routing install comes before
the first link and before every address assignment, so the topology is not
complete before routing is installed. -/
theorem C3_spec_order_fails :
    ∃ s, outcome main = Except.ok s ∧
      s.stages.get? 1 = some Stage.routing ∧
      s.stages.get? 2 = some Stage.links ∧
      ¬ SpecBuildOrder s.stages :=
  ⟨scenario, main_outcome, by decide⟩

/-- C3, amended: the build steps of `main` run in the order nodes, routing,
links, addresses; nodes, routing, links and addresses all come before any
traffic source or sink, and every traffic application comes before the trace
attachment; every one of these stages occurs. -/
theorem C3_code_order :
    ∃ s, outcome main = Except.ok s ∧
      CodeBuildOrder s.stages ∧
      (∀ g ∈ [Stage.nodes, Stage.routing, Stage.links, Stage.addressing, Stage.traffic,
          Stage.trace], g ∈ s.stages) :=
  ⟨scenario, main_outcome, by decide⟩

/-! ## Traffic -/

/-- C4: four flows share the destination (node 0, port 9); the packet sink
bound to (node 0, port 9) is installed exactly once, and no (node, port) pair
is bound by more than one sink. -/
theorem C4_sink_installed_once :
    ∃ s, outcome main = Except.ok s ∧
      s.flows.length = 4 ∧
      (∀ f ∈ s.flows, s.nodeOfAddress f.dstAddr = some 0 ∧ f.dstPort = 9) ∧
      s.sinkBindings.count (0, 9) = 1 ∧
      (∀ b ∈ s.sinkBindings, s.sinkBindings.count b = 1) ∧
      s.sinkBindings.Nodup ∧
      s.log.filter Call.isSinkInstall = [Call.sinkInstall [0]] :=
  ⟨scenario, main_outcome, by decide⟩

/-- C5: every flow installed by `main` has the destination address 10.1.1.1,
which is the address `i01.GetAddress (0)` of an installed interface, namely
the one of node 0 on the link between node 0 and node 1; node 0 is the node on
which the sink of the flow's port is installed; no flow has a destination
outside the assigned interface addresses. -/
theorem C5_destination_is_installed :
    ∃ s, outcome main = Except.ok s ∧
      s.flows.length = 4 ∧
      (s.channels.get? 0).map Channel.ends = some (0, 1) ∧
      (s.interfaces.get? 0).map (fun i => (i.node, i.channel, i.address))
        = some (0, 0, ip 10 1 1 1) ∧
      (∀ f ∈ s.flows,
        f.dstAddr = ip 10 1 1 1 ∧
        (∃ i ∈ s.interfaces, i.address = f.dstAddr ∧ i.node = 0 ∧ i.channel = 0) ∧
        (∀ i ∈ s.interfaces, i.address = f.dstAddr → i.node = 0) ∧
        (0, f.dstPort) ∈ s.sinkBindings) ∧
      (∀ f ∈ s.flows, f.dstAddr ∈ s.interfaces.map (fun i => i.address)) :=
  ⟨scenario, main_outcome, by decide⟩

/-- C7: the scenario built by `main` is a 5-node chain whose every link has
bandwidth 50000 kb/s and delay 3 ms; it contains exactly one flow from node 4
to node 0, configured at 10000 kb/s with start time 1.0 s and stop time 21.0 s
(stop after start); the run duration is `start_t + sim_t` = 21.0 s, equal to
that flow's stop time. -/
theorem C7_reference_scenario :
    ∃ s, outcome main = Except.ok s ∧
      s.nodes = 5 ∧
      s.channels.map Channel.ends = specChain 5 ∧
      (∀ ch ∈ s.channels, ch.dataRate = 50000 * 1000 ∧ ch.delay = 3 * 1000000) ∧
      (s.flows.filter (fun f => f.source = 4 ∧ s.nodeOfAddress f.dstAddr = some 0)).map
          (fun f => (f.rate, f.start, f.stop))
        = [(10000 * 1000, Seconds 1, Seconds 21)] ∧
      Seconds 1 < Seconds 21 ∧
      s.stopTime = some (Seconds (1 + 20)) ∧
      s.stopTime = some (Seconds 21) :=
  ⟨scenario, main_outcome, by decide⟩

/-- C10, as stated, fails: the (source, destination) node pairs of the flows
installed by `main` are not the pairs (0, 4) and (3, 1) of the header comment;
(0, 4) is not among them and (4, 0) is. -/
theorem C10_header_flows_fail :
    ∃ s, outcome main = Except.ok s ∧
      (0, 4) ∉ s.flowPairs ∧ (4, 0) ∈ s.flowPairs ∧ ¬ HeaderFlows s.flowPairs := by
  refine ⟨scenario, main_outcome, by decide, by decide, ?_⟩
  intro h
  have h04 : ((0, 4) : Nat × Nat) ∈ scenario.flowPairs := (h (0, 4)).2 (Or.inl rfl)
  exact absurd h04 (by decide)

/-- C10, amended: the flows installed by `main` go from node 4, node 3, node 2
and node 1 to node 0, as the comments at the four OnOff helpers say: every
flow's destination belongs to an interface, and the (source, destination) node
pairs are exactly (4, 0), (3, 0), (2, 0), (1, 0). -/
theorem C10_flows_to_node_zero :
    ∃ s, outcome main = Except.ok s ∧
      s.flows.length = 4 ∧
      s.flowPairs = [(4, 0), (3, 0), (2, 0), (1, 0)] ∧
      (∀ p, p ∈ s.flowPairs ↔ p = (4, 0) ∨ p = (3, 0) ∨ p = (2, 0) ∨ p = (1, 0)) := by
  refine ⟨scenario, main_outcome, by decide, by decide, ?_⟩
  intro p
  have hp : scenario.flowPairs = [(4, 0), (3, 0), (2, 0), (1, 0)] := by decide
  rw [hp]
  simp

/-! ## Routing activation -/

/-- C6: `main` (with `start_t` = 1.0 and `sim_t` = 20.0) installs the routing
behaviour on every one of the 5 nodes with one uniform activation time, equal
to `start_t` = 1.0 s; that time is non-negative, hence at least the simulation
start time 0, and at most the planned stop time `start_t + sim_t` = 21.0 s. -/
theorem C6_uniform_activation :
    main = mainBody 1 20 ∧
    ∃ s, outcome main = Except.ok s ∧
      s.nodes = 5 ∧
      s.routing.map (fun r => (r.node, r.activation)) = [(0, 1), (1, 1), (2, 1), (3, 1), (4, 1)] ∧
      (∀ n, n < s.nodes → (s.routing.filter (fun r => r.node = n)).length = 1) ∧
      s.stopTime = some (Seconds (1 + 20)) ∧
      (∀ r ∈ s.routing,
        r.node < s.nodes ∧ r.protocol = OlsrHelper ∧ r.activation = 1 ∧
        0 ≤ Seconds r.activation ∧ Seconds r.activation ≤ Seconds 21) :=
  ⟨rfl, scenario, main_outcome, by decide⟩

/-! ## Runner -/

/-- C8: the runner part of `main` follows the state machine Built, Running,
Stopped: the log of `main` is its build and traffic calls followed by the
registration of the stop at 21.0 s, one entry into the engine, its return, and
one teardown, in this order; the spec's state machine accepts the log, staying
`Built` up to and including the stop registration, then `Running`, then
`Stopped`; the run is invoked exactly once and the teardown exactly once, and
no build or scheduling call comes after the entry into the engine. -/
theorem C8_runner_life_cycle :
    ∃ s, outcome main = Except.ok s ∧
      (∃ build, s.log = build ++ [Call.simulatorStop (Seconds 21), Call.runBegin, Call.runEnd,
          Call.destroy] ∧
        (∀ c ∈ build, c.stage ≠ Stage.runner) ∧
        (∀ g ∈ [Stage.nodes, Stage.routing, Stage.links, Stage.addressing, Stage.traffic,
          Stage.trace], g ∈ build.map Call.stage)) ∧
      specRunnerTrace RunnerState.Built s.log =
        some (List.replicate 28 RunnerState.Built ++
          [RunnerState.Running, RunnerState.Stopped, RunnerState.Stopped]) ∧
      s.log.count Call.runBegin = 1 ∧
      s.log.count Call.runEnd = 1 ∧
      s.log.count Call.destroy = 1 ∧
      s.runs = 1 ∧
      s.destroys = 1 ∧
      s.state = RunnerState.Stopped ∧
      s.events.filter (fun e => e.2 = EventKind.stop) = [(Seconds 21, EventKind.stop)] ∧
      s.stopTime = some (Seconds 21) :=
  ⟨scenario, main_outcome, ⟨scenario.log.take 27, by decide, by decide, by decide⟩,
    by decide⟩

end Olsr
